import Mathlib

/-!
Verification of the autograph end-entity lifecycle store and the
content-signature PKI signer against their natural-language specification.

The database component (`database` package) is embedded as a pure state
machine over a list of end-entity rows: the SQL statements issued by
`Transaction.InsertEE` and `Transaction.GetLabelOfLatestEE` are modelled by
their effect on that list.  The PKI signer (`contentsignaturepki` package)
is embedded with its external collaborators (hash primitives, the ECDSA
signing primitive, the end-entity lookup and chain publication steps)
as explicit parameters, since those live outside the signer's own code.
-/

namespace AutographDB

/-- A row of the `endentities` table.  Columns follow the `INSERT INTO
endentities(x5u, label, signer_id, hsm_handle, is_current)` statement of
`Transaction.InsertEE`; `created_at` is store-assigned at insertion time
and is modelled by a logical clock. -/
structure EERow where
  x5u : Option String
  label : String
  signerID : String
  hsmHandle : Nat
  isCurrent : Bool
  createdAt : Nat
deriving DecidableEq, Repr

/-- The visible state of the `endentities` table inside one transaction,
together with the logical clock assigning `created_at` stamps. -/
structure EEDB where
  rows : List EERow
  clock : Nat
deriving DecidableEq, Repr

/-- `ErrNoSuitableEEFound`, the distinguished error returned when no
suitable key is found in the database. -/
inductive DBError where
  | noSuitableEEFound
deriving DecidableEq, Repr

/-- Effect of the `UPDATE endentities SET is_current=FALSE WHERE
signer_id=$1 and label!=$2` statement on a single row. -/
def demoteOther (signerID label : String) (r : EERow) : EERow :=
  if r.signerID = signerID ∧ r.label ≠ label then
    ⟨r.x5u, r.label, r.signerID, r.hsmHandle, false, r.createdAt⟩
  else r

/-- `Transaction.InsertEE`: insert the new end-entity row with
`is_current = TRUE`, then mark all other rows of the same signer as no
longer current (the `UPDATE` runs over the whole table, the freshly
inserted row included, but its label equals the new label so it is kept
current). -/
def EEDB.insertEE (db : EEDB) (x5u label signerID : String) (hsmHandle : Nat) : EEDB :=
  ⟨(db.rows ++ [(⟨some x5u, label, signerID, hsmHandle, true, db.clock⟩ : EERow)]).map
      (demoteOther signerID label),
   db.clock + 1⟩

/-- The rows of the table that are current for a given signer. -/
def EEDB.currentFor (db : EEDB) (sid : String) : List EERow :=
  db.rows.filter (fun r => r.isCurrent && r.signerID == sid)

/-- Outcome of the `QueryRow(...).Scan(&label, &nullableX5U)` call inside
`Transaction.GetLabelOfLatestEE`: a row was found, no row qualified
(`sql.ErrNoRows`), or the query failed for some other reason. -/
inductive ScanResult where
  | found (label : String) (x5u : Option String)
  | noRows
  | otherError (msg : String)
deriving DecidableEq, Repr

/-- Tail of `Transaction.GetLabelOfLatestEE` after the `Scan` call, kept
faithful to the Go control flow: only `sql.ErrNoRows` is turned into
`ErrNoSuitableEEFound`; on any other scan error the code falls through to
`x5uValue, err := nullableX5U.Value()`, whose error is always nil, so the
named return value `err` is overwritten with nil and the call returns
empty strings with no error. -/
def getLabelOfLatestEE_onScan : ScanResult → String × String × Option DBError
  | .found l x => (l, x.getD "", none)
  | .noRows => ("", "", some .noSuitableEEFound)
  | .otherError _ => ("", "", none)

/-- The `SELECT label, x5u FROM endentities WHERE is_current=TRUE AND
signer_id=$1 AND created_at > $2 ORDER BY created_at DESC LIMIT 1` query:
keep the qualifying rows and pick the one with the greatest
`created_at`. -/
def queryLatestEE (db : EEDB) (signerID : String) (maxAge : Int) : Option EERow :=
  (db.rows.filter
      (fun r => r.isCurrent && r.signerID == signerID && decide (maxAge < (r.createdAt : Int)))).foldl
    (fun acc r =>
      match acc with
      | none => some r
      | some best => if best.createdAt < r.createdAt then some r else some best)
    none

/-- `Transaction.GetLabelOfLatestEE(signerID, youngerThan)`: compute
`maxAge = now - youngerThan`, run the query, and handle the scan result. -/
def getLabelOfLatestEE (db : EEDB) (signerID : String) (now youngerThan : Int) :
    String × String × Option DBError :=
  getLabelOfLatestEE_onScan
    (match queryLatestEE db signerID (now - youngerThan) with
     | some r => .found r.label r.x5u
     | none => .noRows)

/-- Arguments of one `InsertEE` call for a fixed signer. -/
structure InsertArgs where
  x5u : String
  label : String
  hsmHandle : Nat
deriving DecidableEq, Repr

/-- A sequence of `InsertEE` calls for the same signer, applied in order. -/
def applyInserts (db : EEDB) (signerID : String) (ins : List InsertArgs) : EEDB :=
  ins.foldl (fun d a => d.insertEE a.x5u a.label signerID a.hsmHandle) db

theorem demoteOther_label (sid l : String) (r : EERow) :
    (demoteOther sid l r).label = r.label := by
  unfold demoteOther; split <;> rfl

theorem demoteOther_signerID (sid l : String) (r : EERow) :
    (demoteOther sid l r).signerID = r.signerID := by
  unfold demoteOther; split <;> rfl

theorem filter_demote_nil (sid l : String) :
    ∀ rows : List EERow, (∀ r ∈ rows, r.signerID = sid → r.label ≠ l) →
      (rows.map (demoteOther sid l)).filter (fun r => r.isCurrent && r.signerID == sid) = [] := by
  intro rows h
  induction rows with
  | nil => rfl
  | cons a t ih =>
    have ht := ih (fun r hr => h r (List.mem_cons_of_mem a hr))
    have ha : ((demoteOther sid l a).isCurrent && ((demoteOther sid l a).signerID == sid)) = false := by
      by_cases hsid : a.signerID = sid
      · have hlab : a.label ≠ l := h a (List.mem_cons_self a t) hsid
        have hd : demoteOther sid l a =
            ⟨a.x5u, a.label, a.signerID, a.hsmHandle, false, a.createdAt⟩ := by
          unfold demoteOther; rw [if_pos ⟨hsid, hlab⟩]
        rw [hd]
        simp
      · have hs : (demoteOther sid l a).signerID = a.signerID := demoteOther_signerID sid l a
        have : ((demoteOther sid l a).signerID == sid) = false := by
          rw [hs]
          exact beq_eq_false_iff_ne.mpr hsid
        rw [this]
        simp
    simp only [List.map_cons, List.filter_cons, ha]
    exact ht

theorem insertEE_currentFor (db : EEDB) (x5u l sid : String) (hh : Nat)
    (hno : ∀ r ∈ db.rows, r.signerID = sid → r.label ≠ l) :
    (db.insertEE x5u l sid hh).currentFor sid = [⟨some x5u, l, sid, hh, true, db.clock⟩] := by
  unfold EEDB.insertEE EEDB.currentFor
  simp only [List.map_append, List.filter_append]
  rw [filter_demote_nil sid l db.rows hno]
  have hnew : demoteOther sid l ⟨some x5u, l, sid, hh, true, db.clock⟩ =
      ⟨some x5u, l, sid, hh, true, db.clock⟩ := by
    unfold demoteOther
    rw [if_neg]
    intro hc
    exact hc.2 rfl
  simp [hnew]

theorem queryLatestEE_of_currentFor (db : EEDB) (sid : String) (maxAge : Int)
    (hage : maxAge < 0) (row : EERow) (hcur : db.currentFor sid = [row]) :
    queryLatestEE db sid maxAge = some row := by
  unfold queryLatestEE
  have hf : db.rows.filter
      (fun r => r.isCurrent && r.signerID == sid && decide (maxAge < (r.createdAt : Int))) =
      db.currentFor sid := by
    unfold EEDB.currentFor
    apply List.filter_congr
    intro r _
    have hr : maxAge < (r.createdAt : Int) := lt_of_lt_of_le hage (Int.natCast_nonneg _)
    simp [hr]
  rw [hf, hcur]
  rfl

theorem applyInserts_currentFor (sid : String) :
    ∀ (rest : List InsertArgs) (a : InsertArgs) (db : EEDB),
      ((a :: rest).map InsertArgs.label).Nodup →
      (∀ r ∈ db.rows, r.signerID = sid → r.label ∉ (a :: rest).map InsertArgs.label) →
      ∃ last : InsertArgs, (a :: rest).getLast? = some last ∧
        ∃ c : Nat, (applyInserts db sid (a :: rest)).currentFor sid =
          [⟨some last.x5u, last.label, sid, last.hsmHandle, true, c⟩] := by
  intro rest
  induction rest with
  | nil =>
    intro a db _ havoid
    refine ⟨a, rfl, db.clock, ?_⟩
    have hno : ∀ r ∈ db.rows, r.signerID = sid → r.label ≠ a.label := by
      intro r hr hsid
      have := havoid r hr hsid
      simp only [List.map_cons, List.map_nil, List.mem_cons, List.not_mem_nil] at this
      intro hl
      exact this (Or.inl hl)
    exact insertEE_currentFor db a.x5u a.label sid a.hsmHandle hno
  | cons b t ih =>
    intro a db hnodup havoid
    have hstep : applyInserts db sid (a :: b :: t) =
        applyInserts (db.insertEE a.x5u a.label sid a.hsmHandle) sid (b :: t) := rfl
    have hnodup' : ((b :: t).map InsertArgs.label).Nodup := by
      simp only [List.map_cons] at hnodup ⊢
      exact hnodup.of_cons
    have hhead : a.label ∉ (b :: t).map InsertArgs.label := by
      simp only [List.map_cons] at hnodup
      exact (List.nodup_cons.mp hnodup).1
    have havoid' : ∀ r ∈ (db.insertEE a.x5u a.label sid a.hsmHandle).rows,
        r.signerID = sid → r.label ∉ (b :: t).map InsertArgs.label := by
      intro r hr hsid
      unfold EEDB.insertEE at hr
      simp only [List.mem_map, List.mem_append, List.mem_singleton] at hr
      obtain ⟨r0, hr0, hdem⟩ := hr
      have hlab : r.label = r0.label := by rw [← hdem]; exact demoteOther_label sid a.label r0
      have hsid0 : r0.signerID = sid := by
        rw [← hsid, ← hdem]
        exact (demoteOther_signerID sid a.label r0).symm
      rcases hr0 with hr0 | hr0
      · have := havoid r0 hr0 hsid0
        simp only [List.map_cons, List.mem_cons] at this
        rw [hlab]
        intro hmem
        simp only [List.map_cons, List.mem_cons] at hmem
        exact this (Or.inr hmem)
      · rw [hlab, hr0]
        exact hhead
    rw [hstep]
    obtain ⟨last, hlast, c, hcur⟩ :=
      ih b (db.insertEE a.x5u a.label sid a.hsmHandle) hnodup' havoid'
    exact ⟨last, by rw [List.getLast?_cons_cons]; exact hlast, c, hcur⟩

/-- C1: a sequence of `InsertEE` calls for the same signer with pairwise
distinct labels, starting from a state with no rows for that signer,
leaves exactly one current row for the signer after each call — the most
recently inserted one — and `GetLabelOfLatestEE` with an unbounded age
window returns that row's label. -/
theorem insertEE_single_current (sid : String) (ins pre suf : List InsertArgs) (db : EEDB)
    (hfresh : ∀ r ∈ db.rows, r.signerID ≠ sid)
    (hnodup : (ins.map InsertArgs.label).Nodup)
    (hsplit : ins = pre ++ suf)
    (hpre : pre ≠ [])
    (now youngerThan : Int) (hage : now - youngerThan < 0) :
    ∃ last : InsertArgs, pre.getLast? = some last ∧
      ∃ c : Nat,
        (applyInserts db sid pre).currentFor sid =
          [⟨some last.x5u, last.label, sid, last.hsmHandle, true, c⟩] ∧
        getLabelOfLatestEE (applyInserts db sid pre) sid now youngerThan =
          (last.label, last.x5u, none) := by
  have hnodup_pre : (pre.map InsertArgs.label).Nodup := by
    rw [hsplit, List.map_append] at hnodup
    exact hnodup.of_append_left
  match pre, hpre with
  | a :: rest, _ =>
    have havoid : ∀ r ∈ db.rows, r.signerID = sid →
        r.label ∉ (a :: rest).map InsertArgs.label := by
      intro r hr hsid
      exact absurd hsid (hfresh r hr)
    obtain ⟨last, hlast, c, hcur⟩ := applyInserts_currentFor sid rest a db hnodup_pre havoid
    refine ⟨last, hlast, c, hcur, ?_⟩
    unfold getLabelOfLatestEE
    rw [queryLatestEE_of_currentFor (applyInserts db sid (a :: rest)) sid
        (now - youngerThan) hage _ hcur]
    rfl

theorem insertEE_single_current_witness :
    ∃ last : InsertArgs,
      ([⟨"u1", "l1", 1⟩, ⟨"u2", "l2", 2⟩] : List InsertArgs).getLast? = some last ∧
      ∃ c : Nat,
        (applyInserts ⟨[], 0⟩ "s1" [⟨"u1", "l1", 1⟩, ⟨"u2", "l2", 2⟩]).currentFor "s1" =
          [⟨some last.x5u, last.label, "s1", last.hsmHandle, true, c⟩] ∧
        getLabelOfLatestEE (applyInserts ⟨[], 0⟩ "s1" [⟨"u1", "l1", 1⟩, ⟨"u2", "l2", 2⟩])
          "s1" 0 1 = (last.label, last.x5u, none) :=
  insertEE_single_current "s1" [⟨"u1", "l1", 1⟩, ⟨"u2", "l2", 2⟩]
    [⟨"u1", "l1", 1⟩, ⟨"u2", "l2", 2⟩] [] ⟨[], 0⟩ (by simp) (by decide) (by simp)
    (by simp) 0 1 (by decide)

/-- C2: `GetLabelOfLatestEE` maps `sql.ErrNoRows` to the distinguished
`ErrNoSuitableEEFound`, but a scan failure for any other reason is
silently swallowed: the error variable is overwritten by the always-nil
error of `nullableX5U.Value()` and the call returns empty strings with no
error, contradicting the claim that other query failures surface as a
non-nil error. -/
theorem getLabelOfLatestEE_error_swallowed :
    getLabelOfLatestEE_onScan ScanResult.noRows =
      ("", "", some DBError.noSuitableEEFound) ∧
    getLabelOfLatestEE_onScan (ScanResult.otherError "connection reset by peer") =
      ("", "", none) :=
  ⟨rfl, rfl⟩

end AutographDB

namespace ContentSignaturePKI

/-- Type tag of the `contentsignaturepki` signer. -/
def typeName : String := "contentsignaturepki"

/-- `P256ECDSA`, an ecdsa content signature on the P-256 curve. -/
def P256ECDSA : String := "p256ecdsa"

/-- `P256ECDSABYTESIZE`, the byte length of a P256ECDSA signature. -/
def P256ECDSABYTESIZE : Int := 64

/-- `P384ECDSA`, an ecdsa content signature on the P-384 curve. -/
def P384ECDSA : String := "p384ecdsa"

/-- `P384ECDSABYTESIZE`, the byte length of a P384ECDSA signature. -/
def P384ECDSABYTESIZE : Int := 96

/-- `P521ECDSA`, an ecdsa content signature on the P-521 curve. -/
def P521ECDSA : String := "p521ecdsa"

/-- `P521ECDSABYTESIZE`, the byte length of a P521ECDSA signature. -/
def P521ECDSABYTESIZE : Int := 132

/-- The bytes of the `SignaturePrefix` constant, the string
"Content-Signature:" followed by a zero byte, prepended to data prior to
signing. -/
def SignaturePrefixBytes : List Nat := ("Content-Signature:".toList.map Char.toNat) ++ [0]

/-- The external hash primitives of the Go standard library
(`sha256.New`, `sha512.New384`, `sha512.New`), modelled as abstract
functions together with their documented digest lengths. -/
structure HashPrims where
  sha256 : List Nat → List Nat
  sha384 : List Nat → List Nat
  sha512 : List Nat → List Nat
  sha256_len : ∀ d, (sha256 d).length = 32
  sha384_len : ∀ d, (sha384 d).length = 48
  sha512_len : ∀ d, (sha512 d).length = 64

/-- The fields of the `ContentSigner` that the signing operations read:
its signer ID, its mode (derived from the issuer curve), and its X5U. -/
structure ContentSigner where
  id : String
  mode : String
  x5u : String
deriving DecidableEq, Repr

/-- A Content Signature record as populated by `SignHash`:
`\{Len, Mode, X5U, ID, R, S, Finished}` plus the hash-algorithm name
stored by `storeHashName`. -/
structure ContentSignature where
  len : Int
  mode : String
  x5u : String
  id : String
  r : Int
  s : Int
  finished : Bool
  hashName : String
deriving DecidableEq, Repr

/-- Modelled from the spec: `ContentSignature.storeHashName` (defined in a
file of the repository outside the provided sources) records which hash
algorithm name was used on the signature object. -/
def ContentSignature.storeHashName (c : ContentSignature) (alg : String) : ContentSignature :=
  { c with hashName := alg }

/-- Outcome of `s.issuerPriv.(crypto.Signer).Sign` followed by
`asn1.Unmarshal`: the external signing primitive either yields DER bytes
parsing to an `\{R, S}` pair, yields bytes the ASN.1 parser rejects, or
fails outright. -/
inductive SignPrimResult where
  | ok (r s : Int)
  | badDER
  | failed
deriving DecidableEq, Repr

/-- Errors returned by the signing operations. -/
inductive CSError where
  | invalidInput
  | invalidHashLength (len : Nat)
  | signFailed
  | parseFailed
deriving DecidableEq, Repr

/-- Outcome of a `SignData` call: a signature, an error value, or a
runtime panic. -/
inductive SignDataOutcome where
  | ok (sig : ContentSignature)
  | err (e : CSError)
  | panicked
deriving DecidableEq, Repr

/-- `getSignatureLen`: the fixed size of an ECDSA signature issued by the
signer, or -1 if the mode is unknown. -/
def getSignatureLen (mode : String) : Int :=
  if mode = P256ECDSA then P256ECDSABYTESIZE
  else if mode = P384ECDSA then P384ECDSABYTESIZE
  else if mode = P521ECDSA then P521ECDSABYTESIZE
  else -1

/-- `getSignatureHash`: the name of the hash function used by a given
mode, or an empty string if the mode is unknown. -/
def getSignatureHash (mode : String) : String :=
  if mode = P256ECDSA then "sha256"
  else if mode = P384ECDSA then "sha384"
  else if mode = P521ECDSA then "sha512"
  else ""

/-- `makeTemplatedHash`: prepend `SignaturePrefix` to the data, then hash
with SHA-384 in `p384ecdsa` mode, SHA-512 in `p521ecdsa` mode, and
SHA-256 in every other mode (the `default` branch of the switch).
Returns the hash-algorithm name and the digest. -/
def makeTemplatedHash (prims : HashPrims) (data : List Nat) (curvename : String) :
    String × List Nat :=
  let templated := SignaturePrefixBytes ++ data
  if curvename = P384ECDSA then ("sha384", prims.sha384 templated)
  else if curvename = P521ECDSA then ("sha512", prims.sha512 templated)
  else ("sha256", prims.sha256 templated)

/-- `ContentSigner.SignHash`: reject digests whose length is not 32, 48
or 64; otherwise sign with the issuer key, parse the DER structure, and
populate a Content Signature with the curve's fixed length, the signer's
mode, X5U and ID, the parsed R and S, and `Finished = true`. -/
def ContentSigner.SignHash (s : ContentSigner) (prim : SignPrimResult) (input : List Nat) :
    Except CSError ContentSignature :=
  if input.length ≠ 32 ∧ input.length ≠ 48 ∧ input.length ≠ 64 then
    .error (.invalidHashLength input.length)
  else
    match prim with
    | .failed => .error .signFailed
    | .badDER => .error .parseFailed
    | .ok r sv => .ok ⟨getSignatureLen s.mode, s.mode, s.x5u, s.id, r, sv, true, ""⟩

/-- `ContentSigner.SignData`: reject inputs under 10 bytes, compute the
templated hash, delegate to `SignHash`, and then — before any error
check — store the hash-algorithm name through the interface value
returned by `SignHash`.  When `SignHash` returned an error that interface
value is nil and the type assertion `sig.(*ContentSignature)` panics,
which the model records as the `panicked` outcome. -/
def ContentSigner.SignData (s : ContentSigner) (prims : HashPrims) (prim : SignPrimResult)
    (input : List Nat) : SignDataOutcome :=
  if input.length < 10 then .err .invalidInput
  else
    let ah := makeTemplatedHash prims input s.mode
    match s.SignHash prim ah.2 with
    | .error _ => .panicked
    | .ok csig => .ok (csig.storeHashName ah.1)

/-- A concrete instance of the hash primitives, used to evaluate the
signing operations on closed inputs. -/
def constHashPrims : HashPrims :=
  ⟨fun _ => List.replicate 32 0, fun _ => List.replicate 48 0, fun _ => List.replicate 64 0,
   fun _ => by simp, fun _ => by simp, fun _ => by simp⟩

/-- C3: a failure of the underlying signing primitive inside `SignHash`
is returned to the caller as an error value, but `SignData` then applies
the type assertion `sig.(*ContentSignature)` to the nil interface value
before checking that error, so the very same failure aborts `SignData`
with a runtime panic instead of being returned — the signer does not
satisfy the no-panic claim. -/
theorem signData_panics_on_sign_failure :
    ContentSigner.SignHash ⟨"id1", "p256ecdsa", "https://u"⟩ SignPrimResult.failed
        (List.replicate 32 0) = .error .signFailed ∧
    ContentSigner.SignData ⟨"id1", "p256ecdsa", "https://u"⟩ constHashPrims
        SignPrimResult.failed (List.replicate 10 0) = .panicked :=
  ⟨rfl, by decide⟩

/-- C4: `SignData` rejects inputs under 10 bytes with the invalid-input
error; on longer inputs it prepends the literal prefix bytes
"Content-Signature:" followed by a zero byte, hashes with SHA-256 in
`p256ecdsa` mode, SHA-384 in `p384ecdsa` mode, or SHA-512 in `p521ecdsa`
mode, and records the corresponding hash-algorithm name on the returned
signature. -/
theorem signData_templated_hash (prims : HashPrims) (s : ContentSigner)
    (input : List Nat) (r sv : Int) :
    (input.length < 10 → ∀ prim, s.SignData prims prim input = .err .invalidInput) ∧
    (10 ≤ input.length →
      (s.mode = P256ECDSA →
        makeTemplatedHash prims input s.mode =
          ("sha256", prims.sha256 (SignaturePrefixBytes ++ input)) ∧
        s.SignData prims (.ok r sv) input =
          .ok ⟨64, s.mode, s.x5u, s.id, r, sv, true, "sha256"⟩) ∧
      (s.mode = P384ECDSA →
        makeTemplatedHash prims input s.mode =
          ("sha384", prims.sha384 (SignaturePrefixBytes ++ input)) ∧
        s.SignData prims (.ok r sv) input =
          .ok ⟨96, s.mode, s.x5u, s.id, r, sv, true, "sha384"⟩) ∧
      (s.mode = P521ECDSA →
        makeTemplatedHash prims input s.mode =
          ("sha512", prims.sha512 (SignaturePrefixBytes ++ input)) ∧
        s.SignData prims (.ok r sv) input =
          .ok ⟨132, s.mode, s.x5u, s.id, r, sv, true, "sha512"⟩)) := by
  constructor
  · intro h prim
    simp [ContentSigner.SignData, h]
  · intro h10
    have hlt : ¬ input.length < 10 := Nat.not_lt.mpr h10
    refine ⟨?_, ?_, ?_⟩ <;> intro hm
    · have hd : (prims.sha256 (SignaturePrefixBytes ++ input)).length = 32 :=
        prims.sha256_len _
      simp [ContentSigner.SignData, ContentSigner.SignHash, makeTemplatedHash, hm, hlt, hd,
        getSignatureLen, ContentSignature.storeHashName, P256ECDSA, P384ECDSA, P521ECDSA,
        P256ECDSABYTESIZE]
    · have hd : (prims.sha384 (SignaturePrefixBytes ++ input)).length = 48 :=
        prims.sha384_len _
      simp [ContentSigner.SignData, ContentSigner.SignHash, makeTemplatedHash, hm, hlt, hd,
        getSignatureLen, ContentSignature.storeHashName, P256ECDSA, P384ECDSA, P521ECDSA,
        P384ECDSABYTESIZE]
    · have hd : (prims.sha512 (SignaturePrefixBytes ++ input)).length = 64 :=
        prims.sha512_len _
      simp [ContentSigner.SignData, ContentSigner.SignHash, makeTemplatedHash, hm, hlt, hd,
        getSignatureLen, ContentSignature.storeHashName, P256ECDSA, P384ECDSA, P521ECDSA,
        P521ECDSABYTESIZE]

theorem signData_templated_hash_witness :
    10 ≤ (List.replicate 10 0).length ∧
    ContentSigner.SignData ⟨"id1", "p256ecdsa", "https://u"⟩ constHashPrims
        (SignPrimResult.ok 1 2) (List.replicate 10 0) =
      .ok ⟨64, "p256ecdsa", "https://u", "id1", 1, 2, true, "sha256"⟩ :=
  ⟨by decide,
    (((signData_templated_hash constHashPrims ⟨"id1", "p256ecdsa", "https://u"⟩
        (List.replicate 10 0) 1 2).2 (by decide)).1 rfl).2⟩

/-- C5: `SignHash` rejects every digest whose byte length is not 32, 48
or 64 with the invalid-hash-length error, and on digests of length 32,
48 or 64 the length check passes — the result is never an
invalid-hash-length error. -/
theorem signHash_length_check (s : ContentSigner) (prim : SignPrimResult) (input : List Nat) :
    (input.length ≠ 32 ∧ input.length ≠ 48 ∧ input.length ≠ 64 →
      s.SignHash prim input = .error (.invalidHashLength input.length)) ∧
    ((input.length = 32 ∨ input.length = 48 ∨ input.length = 64) →
      ∀ l, s.SignHash prim input ≠ .error (.invalidHashLength l)) := by
  constructor
  · intro h
    simp [ContentSigner.SignHash, h]
  · intro h l
    have hcond : ¬(input.length ≠ 32 ∧ input.length ≠ 48 ∧ input.length ≠ 64) := by
      rcases h with h | h | h <;> simp [h]
    simp only [ContentSigner.SignHash, if_neg hcond]
    cases prim <;> simp

theorem signHash_length_check_witness :
    ((1 : Nat) ≠ 32 ∧ (1 : Nat) ≠ 48 ∧ (1 : Nat) ≠ 64) ∧
    ContentSigner.SignHash ⟨"id1", "p256ecdsa", "https://u"⟩ SignPrimResult.failed [0] =
      .error (.invalidHashLength 1) :=
  ⟨by decide,
    (signHash_length_check ⟨"id1", "p256ecdsa", "https://u"⟩ SignPrimResult.failed [0]).1
      (by decide)⟩

/-- C6: on a validly-sized digest with the signing primitive succeeding,
`SignHash` produces a Content Signature whose fixed length is 64 bytes
in `p256ecdsa` mode, 96 in `p384ecdsa` mode and 132 in `p521ecdsa` mode,
with R and S populated from the parsed DER structure, Mode, X5U and
signer ID copied from the signer, and `Finished = true`. -/
theorem signHash_signature_fields (s : ContentSigner) (input : List Nat) (r sv : Int)
    (hlen : input.length = 32 ∨ input.length = 48 ∨ input.length = 64) :
    (s.mode = P256ECDSA →
      s.SignHash (.ok r sv) input = .ok ⟨64, s.mode, s.x5u, s.id, r, sv, true, ""⟩) ∧
    (s.mode = P384ECDSA →
      s.SignHash (.ok r sv) input = .ok ⟨96, s.mode, s.x5u, s.id, r, sv, true, ""⟩) ∧
    (s.mode = P521ECDSA →
      s.SignHash (.ok r sv) input = .ok ⟨132, s.mode, s.x5u, s.id, r, sv, true, ""⟩) := by
  have hcond : ¬(input.length ≠ 32 ∧ input.length ≠ 48 ∧ input.length ≠ 64) := by
    rcases hlen with h | h | h <;> simp [h]
  refine ⟨?_, ?_, ?_⟩ <;> intro hm <;>
    simp [ContentSigner.SignHash, if_neg hcond, getSignatureLen, hm,
      P256ECDSA, P384ECDSA, P521ECDSA, P256ECDSABYTESIZE, P384ECDSABYTESIZE,
      P521ECDSABYTESIZE]

theorem signHash_signature_fields_witness :
    ((List.replicate 32 (0 : Nat)).length = 32 ∨ (List.replicate 32 (0 : Nat)).length = 48 ∨
      (List.replicate 32 (0 : Nat)).length = 64) ∧
    ContentSigner.SignHash ⟨"id1", "p256ecdsa", "https://u"⟩ (SignPrimResult.ok 5 7)
        (List.replicate 32 0) =
      .ok ⟨64, "p256ecdsa", "https://u", "id1", 5, 7, true, ""⟩ :=
  ⟨by decide,
    (signHash_signature_fields ⟨"id1", "p256ecdsa", "https://u"⟩ (List.replicate 32 0) 5 7
      (by decide)).1 rfl⟩

/-- C10: in any mode other than `p384ecdsa` and `p521ecdsa` — including
the empty or an unrecognized mode — the templated hash falls back to
SHA-256 and reports the algorithm name "sha256", the digest has 32 bytes
and passes the `SignHash` length check, and `SignData` succeeds rather
than rejecting the unknown mode. -/
theorem unknown_mode_sha256_fallback (prims : HashPrims) (s : ContentSigner)
    (input : List Nat) (r sv : Int)
    (h384 : s.mode ≠ P384ECDSA) (h521 : s.mode ≠ P521ECDSA) (h10 : 10 ≤ input.length) :
    makeTemplatedHash prims input s.mode =
      ("sha256", prims.sha256 (SignaturePrefixBytes ++ input)) ∧
    (prims.sha256 (SignaturePrefixBytes ++ input)).length = 32 ∧
    s.SignData prims (.ok r sv) input =
      .ok ⟨getSignatureLen s.mode, s.mode, s.x5u, s.id, r, sv, true, "sha256"⟩ := by
  have hlt : ¬ input.length < 10 := Nat.not_lt.mpr h10
  have hd : (prims.sha256 (SignaturePrefixBytes ++ input)).length = 32 := prims.sha256_len _
  refine ⟨?_, hd, ?_⟩
  · simp [makeTemplatedHash, h384, h521]
  · simp [ContentSigner.SignData, ContentSigner.SignHash, makeTemplatedHash, h384, h521,
      hlt, hd, ContentSignature.storeHashName]

theorem unknown_mode_sha256_fallback_witness :
    (("" : String) ≠ P384ECDSA ∧ ("" : String) ≠ P521ECDSA ∧
      10 ≤ (List.replicate 10 (0 : Nat)).length) ∧
    ContentSigner.SignData ⟨"id1", "", "https://u"⟩ constHashPrims
        (SignPrimResult.ok 1 2) (List.replicate 10 0) =
      .ok ⟨-1, "", "https://u", "id1", 1, 2, true, "sha256"⟩ :=
  ⟨⟨by decide, by decide, by decide⟩,
    (unknown_mode_sha256_fallback constHashPrims ⟨"id1", "", "https://u"⟩
      (List.replicate 10 0) 1 2 (by decide) (by decide) (by decide)).2.2⟩

/-- The fields of a signer configuration that the validation steps of
`New` read. -/
structure SignerConf where
  type : String
  id : String
  privateKey : String
  publicKey : String
  x5u : String
  validity : Nat
deriving DecidableEq, Repr

/-- The issuer public key returned by `conf.GetKeysAndRand`, as seen by
the type switch in `New`: an ECDSA key with a named curve, or any other
key type. -/
inductive IssuerPub where
  | ecdsaKey (curveName : String)
  | nonEcdsa
deriving DecidableEq, Repr

/-- Error of the `findEE` lookup: the distinguished
`ErrNoSuitableEEFound` signal or any other lookup failure. -/
inductive FindEEError where
  | noSuitableEEFound
  | other (msg : String)
deriving DecidableEq, Repr

/-- Modelled from the spec: the outcomes of the external collaborators
called by `New`, whose bodies are not among the provided sources.
`getKeysAndRand` loads the issuer key pair; `findEE` looks up a current
end-entity for the signer; `makeEE` generates a new end-entity; the n-th
call of `makeChainAndX5U` builds and publishes a chain, configuring the
returned X5U on the signer; the n-th call of `verifyX5U` checks that the
configured X5U is reachable and valid, failing with a message starting
with "failed to retrieve x5u" exactly when the resource could not be
retrieved. -/
structure NewEnv where
  getKeysAndRand : Except String IssuerPub
  findEE : Except FindEEError Unit
  makeEE : Except String Unit
  makeChainAndX5U : Nat → Except String String
  verifyX5U : Nat → Except String Unit

/-- `getModeFromCurve`: the content signature mode for the issuer
curve, or an empty string if the curve is unknown. -/
def getModeFromCurve (curveName : String) : String :=
  if curveName = "P-256" then P256ECDSA
  else if curveName = "P-384" then P384ECDSA
  else if curveName = "P-521" then P521ECDSA
  else ""

/-- Whether the first list is an initial segment of the second. -/
def listHasPfx : List Char → List Char → Bool
  | [], _ => true
  | _ :: _, [] => false
  | p :: ps, c :: cs => p == c && listHasPfx ps cs

/-- The `strings.HasPrefix(err.Error(), "failed to retrieve x5u")` test
of `New`. -/
def isRetrieveFailure (msg : String) : Bool :=
  listHasPfx "failed to retrieve x5u".toList msg.toList

/-- Result of `New` together with the number of `verifyX5U` calls the
construction performed. -/
structure NewResult where
  result : Except String ContentSigner
  verifyCalls : Nat

/-- `New`: validate the configuration, load the issuer key, require an
ECDSA key, derive the mode from the curve (an unknown curve yields an
empty mode and no error), look up or create the end-entity, then verify
the configured X5U once; when that verification fails with a message
starting with "failed to retrieve x5u" the chain and X5U are rebuilt and
the signer is returned without any further verification, and any other
verification failure is fatal. -/
def New (conf : SignerConf) (env : NewEnv) : NewResult :=
  if conf.type ≠ typeName then
    ⟨.error "contentsignaturepki: invalid type", 0⟩
  else if conf.id = "" then
    ⟨.error "contentsignaturepki: missing signer ID in signer configuration", 0⟩
  else if conf.privateKey = "" then
    ⟨.error "contentsignaturepki: missing private key in signer configuration", 0⟩
  else
    match env.getKeysAndRand with
    | .error e => ⟨.error ("contentsignaturepki: failed to retrieve signer: " ++ e), 0⟩
    | .ok IssuerPub.nonEcdsa =>
        ⟨.error "contentsignaturepki: invalid key for CA cert, must be ecdsa", 0⟩
    | .ok (IssuerPub.ecdsaKey curve) =>
      let mode := getModeFromCurve curve
      let afterEE : Except String (Option String × Nat) :=
        match env.findEE with
        | .ok _ => .ok (none, 0)
        | .error FindEEError.noSuitableEEFound =>
          match env.makeEE with
          | .error e =>
              .error ("contentsignaturepki: failed to make suitable end-entity: " ++ e)
          | .ok _ =>
            match env.makeChainAndX5U 0 with
            | .error e =>
                .error
                  ("contentsignaturepki: failed to make chain and x5u for end-entity: " ++ e)
            | .ok newX5U => .ok (some newX5U, 1)
        | .error (FindEEError.other e) =>
            .error ("contentsignaturepki: failed to find suitable end-entity: " ++ e)
      match afterEE with
      | .error e => ⟨.error e, 0⟩
      | .ok (optX5U, chainCalls) =>
        let x5u1 := optX5U.getD conf.x5u
        match env.verifyX5U 0 with
        | .ok _ => ⟨.ok ⟨conf.id, mode, x5u1⟩, 1⟩
        | .error e =>
          if isRetrieveFailure e then
            match env.makeChainAndX5U chainCalls with
            | .error e2 =>
                ⟨.error
                  ("contentsignaturepki: failed to make chain and x5u for end-entity: " ++ e2),
                 1⟩
            | .ok newX5U => ⟨.ok ⟨conf.id, mode, newX5U⟩, 1⟩
          else ⟨.error ("contentsignaturepki: failed to verify x5u: " ++ e), 1⟩

/-- An environment whose issuer key lives on the unsupported curve P-224
and whose remaining collaborators all succeed. -/
def env224 : NewEnv :=
  ⟨.ok (.ecdsaKey "P-224"), .ok (), .ok (), fun _ => .ok "https://new", fun _ => .ok ()⟩

set_option maxRecDepth 20000 in
/-- C7 counterexample: with an ECDSA issuer key on the unsupported curve
P-224, an existing end-entity and a verifiable X5U, `New` succeeds and
returns a signer (with an empty mode string) — it does not fail with a
fatal construction error as the claim states. -/
theorem new_unknown_curve_succeeds :
    New ⟨"contentsignaturepki", "sid1", "privkey", "pub", "https://u", 0⟩ env224 =
      ⟨.ok ⟨"sid1", "", "https://u"⟩, 1⟩ := rfl

/-- C7 (amended): an ECDSA issuer key on a curve other than P-256, P-384
and P-521 is not rejected: `getModeFromCurve` returns the empty string,
`New` performs no check on it, and construction succeeds (given an
existing end-entity and a verifiable X5U) with `Mode = ""`. -/
theorem new_unknown_curve_mode_empty (conf : SignerConf) (env : NewEnv) (curve : String)
    (htype : conf.type = typeName) (hid : conf.id ≠ "") (hpriv : conf.privateKey ≠ "")
    (hkeys : env.getKeysAndRand = .ok (.ecdsaKey curve))
    (h256 : curve ≠ "P-256") (h384 : curve ≠ "P-384") (h521 : curve ≠ "P-521")
    (hfind : env.findEE = .ok ()) (hverify : env.verifyX5U 0 = .ok ()) :
    getModeFromCurve curve = "" ∧
    New conf env = ⟨.ok ⟨conf.id, "", conf.x5u⟩, 1⟩ := by
  have hmode : getModeFromCurve curve = "" := by
    simp [getModeFromCurve, h256, h384, h521]
  refine ⟨hmode, ?_⟩
  simp [New, htype, hid, hpriv, hkeys, hfind, hverify, hmode]

theorem new_unknown_curve_mode_empty_witness :
    (("P-224" : String) ≠ "P-256" ∧ ("P-224" : String) ≠ "P-384" ∧
      ("P-224" : String) ≠ "P-521") ∧
    getModeFromCurve "P-224" = "" ∧
    New ⟨"contentsignaturepki", "sid1", "privkey", "pub", "https://u", 0⟩ env224 =
      ⟨.ok ⟨"sid1", "", "https://u"⟩, 1⟩ :=
  ⟨⟨by decide, by decide, by decide⟩,
    new_unknown_curve_mode_empty
      ⟨"contentsignaturepki", "sid1", "privkey", "pub", "https://u", 0⟩ env224 "P-224"
      rfl (by decide) (by decide) rfl (by decide) (by decide) (by decide) rfl rfl⟩

/-- An environment whose X5U verification fails on every call because
the resource cannot be retrieved, while chain regeneration succeeds. -/
def envRepair : NewEnv :=
  ⟨.ok (.ecdsaKey "P-256"), .ok (), .ok (), fun _ => .ok "https://regenerated",
   fun _ => .error "failed to retrieve x5u https://u: 404 not found"⟩

set_option maxRecDepth 20000 in
/-- C8: when X5U verification fails because the resource could not be
retrieved, `New` regenerates the chain and X5U and then returns the
signer immediately: construction succeeds after exactly one verification
attempt even though the verifier fails on every call, so verification is
never performed again — contradicting the claim and the code's own
comment ("make a new chain, upload it and re-verify"). -/
theorem new_no_reverify_after_regeneration :
    New ⟨"contentsignaturepki", "sid1", "privkey", "pub", "https://u", 0⟩ envRepair =
      ⟨.ok ⟨"sid1", "p256ecdsa", "https://regenerated"⟩, 1⟩ := rfl

end ContentSignaturePKI

namespace Mar

/-- A JSON value, the image of a Go value under `json.Marshal` (a nil
input marshals to JSON null). -/
inductive Json where
  | null
  | str (s : String)
  | num (n : Int)
  | bool (b : Bool)
  | arr (elems : List Json)
  | obj (fields : List (String × Json))

/-- The MAR signer's options record: a single `SigAlg uint32` field with
JSON tag "sigalg". -/
structure Options where
  sigAlg : Nat
deriving DecidableEq, Repr

/-- `encoding/json` field resolution for the `sigalg` key: the match is
case-insensitive. -/
def lookupSigAlg (fields : List (String × Json)) : Option Json :=
  match fields with
  | [] => none
  | (k, v) :: rest =>
    if (k.toList.map Char.toLower) = "sigalg".toList then some v else lookupSigAlg rest

/-- `GetOptions`: `json.Marshal` the input, then `json.Unmarshal` the
bytes into the `Options` record.  Unmarshalling follows `encoding/json`:
JSON null is a no-op that leaves the zero value and returns no error; an
object sets `SigAlg` from a field matching "sigalg" when that field
holds an integer representable as uint32; any other shape is an
unmarshal type error. -/
def GetOptions (input : Json) : Except String Options :=
  match input with
  | .null => .ok ⟨0⟩
  | .obj fields =>
    match lookupSigAlg fields with
    | none => .ok ⟨0⟩
    | some .null => .ok ⟨0⟩
    | some (.num n) =>
      if 0 ≤ n ∧ n < 4294967296 then .ok ⟨n.toNat⟩
      else .error "json: cannot unmarshal number into field sigalg of type uint32"
    | some _ => .error "json: cannot unmarshal value into field sigalg of type uint32"
  | _ => .error "json: cannot unmarshal value into Go value of type mar.Options"

/-- C9: `GetOptions` on a nil input (which marshals to JSON null)
returns the zero-value options record with no error, and `GetOptions` on
a value that cannot be structurally re-encoded into the options record —
a string, boolean, number or array at top level, or an object whose
"sigalg" field is not a number — returns an error. -/
theorem getOptions_nil_and_incompatible :
    GetOptions Json.null = .ok ⟨0⟩ ∧
    (∀ s, ∃ e, GetOptions (Json.str s) = .error e) ∧
    (∀ b, ∃ e, GetOptions (Json.bool b) = .error e) ∧
    (∀ n, ∃ e, GetOptions (Json.num n) = .error e) ∧
    (∀ xs, ∃ e, GetOptions (Json.arr xs) = .error e) ∧
    (∀ s, ∃ e, GetOptions (Json.obj [("sigalg", Json.str s)]) = .error e) := by
  refine ⟨rfl, ?_, ?_, ?_, ?_, ?_⟩ <;> intro x <;> exact ⟨_, rfl⟩

end Mar
